import Mathlib

set_option maxRecDepth 100000

/-!
Verification of the invoice product-matching pipeline
(`src/pdf-extract-function/product_matching_pipeline.py` and
`src/pdf-extract-function/vector_service.py`).

The Python code is shallowly embedded: Python floats are modelled as `ℚ`,
JSON values as the inductive `JVal`, Python exceptions as `Except PyErr`,
and the external collaborators (ChromaDB collections, the OpenAI LLM, the
SQL store) as explicit oracle arguments / state values.  Each definition
mirrors one Python function of the same name.
-/

namespace NsvPipeline

/-! ## Character classes (Python `re` semantics, ASCII fragment)

`\w` in Python matches `[a-zA-Z0-9_]` (plus non-ASCII letters, which do not
occur in the inputs considered here); `\s` matches `[ \t\n\r\f\v]`;
`\d` matches `[0-9]`. -/

def isWordChar (c : Char) : Bool := c.isAlphanum || c == '_'

def isPySpaceChar (c : Char) : Bool :=
  c == ' ' || c == '\t' || c == '\n' || c == '\r' || c == '\x0b' || c == '\x0c'

def isAsciiDigit (c : Char) : Bool := c.isDigit

/-- Python `str.strip()`: drop whitespace from both ends. -/
def pyStrip (s : List Char) : List Char :=
  ((s.dropWhile isPySpaceChar).reverse.dropWhile isPySpaceChar).reverse

/-- Python `str.lower()` (ASCII fragment). -/
def pyLower (s : List Char) : List Char := s.map Char.toLower

/-! ## A tiny matcher engine for the six fixed `re.sub` patterns of
`clean_and_normalize_description`.

A matcher receives the flag "previous character is a word character" (for the
leading `\b` assertion; `re.sub` evaluates boundaries on the *original*
string) and the remaining input, and returns the replacement text together
with the rest of the input after the match.  All patterns used by the source
start and end with word characters, so after any match the
previous-character flag is `true`. -/

/-- Trailing `\b` after a pattern ending in a word character: the next input
character must be absent or a non-word character. -/
def boundaryAfter : List Char → Bool
  | [] => true
  | c :: _ => !isWordChar c

/-- Strip an exact literal prefix. -/
def stripPre : List Char → List Char → Option (List Char)
  | [], s => some s
  | _ :: _, [] => none
  | k :: ks, c :: cs => if k == c then stripPre ks cs else none

/-- `re.sub` scanning: leftmost, non-overlapping matches over the original
string; unmatched characters are copied.  The patterns below consume at
least one character on every match, so fuel = input length suffices. -/
def reSubAux (m : Bool → List Char → Option (List Char × List Char)) :
    Nat → Bool → List Char → List Char
  | 0, _, s => s
  | _ + 1, _, [] => []
  | fuel + 1, pw, c :: rest =>
    match m pw (c :: rest) with
    | some (repl, rest') => repl ++ reSubAux m fuel true rest'
    | none => c :: reSubAux m fuel (isWordChar c) rest

def reSub (m : Bool → List Char → Option (List Char × List Char))
    (s : List Char) : List Char :=
  reSubAux m s.length false s

/-- `\b(qty|quantity|ea|each|unit|units|item|items)\b` → `''`.
Alternatives are tried in source order; a failing trailing `\b` falls
through to the next alternative, which makes this whole-word matching. -/
def fillerWords : List (List Char) :=
  ["qty".data, "quantity".data, "ea".data, "each".data,
   "unit".data, "units".data, "item".data, "items".data]

def matchFiller (pw : Bool) (s : List Char) : Option (List Char × List Char) :=
  if pw then none else
  fillerWords.findSome? fun w =>
    match stripPre w s with
    | some rest => if boundaryAfter rest then some ([], rest) else none
    | none => none

/-- One alternative of `(x|×|by)`, tried in source order. -/
def matchSep (s : List Char) : Option (List Char × List Char) :=
  match stripPre ['x'] s with
  | some r => some (['x'], r)
  | none =>
    match stripPre ['×'] s with
    | some r => some (['×'], r)
    | none =>
      match stripPre ['b', 'y'] s with
      | some r => some (['b', 'y'], r)
      | none => none

/-- `\b\d+\s*(x|×|by)\s*\d+\b`, replaced by the match with `' '` removed
(the source lambda `m.group(0).replace(' ', '')`).  Greedy `\d+`/`\s*` with
no backtracking is equivalent here: a shorter greedy match always fails on
the following literal. -/
def matchDims (pw : Bool) (s : List Char) : Option (List Char × List Char) :=
  if pw then none else
  let (d1, r1) := s.span isAsciiDigit
  if d1.isEmpty then none else
  let (sp1, r2) := r1.span isPySpaceChar
  match matchSep r2 with
  | none => none
  | some (sep, r3) =>
    let (sp2, r4) := r3.span isPySpaceChar
    let (d2, r5) := r4.span isAsciiDigit
    if d2.isEmpty then none else
    if boundaryAfter r5 then
      some ((d1 ++ sp1 ++ sep ++ sp2 ++ d2).filter (fun c => c != ' '), r5)
    else none

/-- `\b(\d+)\s*UNIT\b` → `\1UNIT` for `UNIT ∈ {mm, m, cm}`. -/
def matchMeasure (unit : List Char) (pw : Bool) (s : List Char) :
    Option (List Char × List Char) :=
  if pw then none else
  let (d, r1) := s.span isAsciiDigit
  if d.isEmpty then none else
  let (_, r2) := r1.span isPySpaceChar
  match stripPre unit r2 with
  | some r3 => if boundaryAfter r3 then some (d ++ unit, r3) else none
  | none => none

/-- `\bOLD\b` → `NEW` for one abbreviation-dictionary entry. -/
def matchWordRepl (key val : List Char) (pw : Bool) (s : List Char) :
    Option (List Char × List Char) :=
  if pw then none else
  match stripPre key s with
  | some rest => if boundaryAfter rest then some (val, rest) else none
  | none => none

/-- The `replacements` dict of `clean_and_normalize_description`, in
insertion order (Python dicts preserve it). -/
def abbrevPairs : List (List Char × List Char) :=
  [("galvanised".data, "galvanized".data),
   ("galv".data, "galvanized".data),
   ("ss".data, "stainless steel".data),
   ("st steel".data, "stainless steel".data),
   ("hw".data, "hardwood".data),
   ("sw".data, "softwood".data),
   ("dar".data, "dressed all round".data),
   ("ddr".data, "dressed dual radius".data),
   ("h4".data, "treated h4".data),
   ("treated".data, "treated h3".data)]

/-- `re.sub(r'\s+', ' ', s)`: collapse whitespace runs to one space. -/
def collapseWsAux : Bool → List Char → List Char
  | _, [] => []
  | prevSp, c :: rest =>
    if isPySpaceChar c then
      if prevSp then collapseWsAux true rest else ' ' :: collapseWsAux true rest
    else c :: collapseWsAux false rest

/-- `ProductMatchingPipeline.clean_and_normalize_description`.  `if not
description: return ""` covers the empty string (and a `None` argument);
then lowercase+strip, the six `re.sub` passes in source order, the
abbreviation dictionary in insertion order, and whitespace collapse+strip. -/
def clean_and_normalize_description (description : String) : String :=
  if description = "" then "" else
  let c0 := pyStrip (pyLower description.data)
  let c1 := reSub matchFiller c0
  let c2 := reSub matchDims c1
  let c3 := reSub (matchMeasure "mm".data) c2
  let c4 := reSub (matchMeasure "m".data) c3
  let c5 := reSub (matchMeasure "cm".data) c4
  let c6 := abbrevPairs.foldl (fun s kv => reSub (matchWordRepl kv.1 kv.2) s) c5
  String.mk (pyStrip (collapseWsAux false c6))

/-- `clean_and_normalize_description` applied to a possibly-null argument:
Python's `if not description` treats `None` like the empty string. -/
def clean_and_normalize_opt : Option String → String
  | none => ""
  | some s => clean_and_normalize_description s

/-! ## Python values and exceptions

`extract_line_items` receives arbitrary OCR JSON and manipulates it with
`dict.get`, subscripting, truthiness and `float(...)`; its `try` block
catches only `(ValueError, TypeError, KeyError)`.  We model JSON values as
`JVal`, Python floats as `ℚ`, and exceptions as `Except PyErr`. -/

inductive PyErr where
  | valueError
  | typeError
  | keyError
  | attributeError
  /-- `NameError`, including `UnboundLocalError` (reading a local variable
  that was never assigned). -/
  | nameError
  | indexError
deriving DecidableEq

/-- Exception classes caught by `except (ValueError, TypeError, KeyError)`. -/
def PyErr.isCaughtByItemHandler : PyErr → Bool
  | .valueError => true
  | .typeError => true
  | .keyError => true
  | _ => false

inductive JVal where
  | jnull
  | jbool (b : Bool)
  | jnum (q : ℚ)
  | jstr (s : String)
  | jarr (elems : List JVal)
  | jdict (entries : List (String × JVal))

/-- Python truthiness (`if x:`) on JSON-shaped values. -/
def pyTruthy : JVal → Bool
  | .jnull => false
  | .jbool b => b
  | .jnum q => q != 0
  | .jstr s => s != ""
  | .jarr l => !l.isEmpty
  | .jdict l => !l.isEmpty

/-- `d.get(key, default)` where `d` is known to be a dict (first binding of
the key wins; Python dicts have unique keys). -/
def dGet (entries : List (String × JVal)) (key : String) (dflt : JVal) : JVal :=
  match entries.find? (fun p => p.1 == key) with
  | some p => p.2
  | none => dflt

/-- `x.get(key, default)` for arbitrary `x`: only dicts have `.get`, any
other receiver raises `AttributeError` (which the extraction loop does NOT
catch). -/
def pyGet (v : JVal) (key : String) (dflt : JVal) : Except PyErr JVal :=
  match v with
  | .jdict entries => .ok (dGet entries key dflt)
  | _ => .error .attributeError

/-- `x[key]` subscripting with a string key: dicts raise `KeyError` when the
key is absent; lists/strings/numbers raise `TypeError` for a string index. -/
def jGetItem (v : JVal) (key : String) : Except PyErr JVal :=
  match v with
  | .jdict entries =>
    match entries.find? (fun p => p.1 == key) with
    | some p => .ok p.2
    | none => .error .keyError
  | _ => .error .typeError

/-- `key in x`: key membership for dicts, element membership for lists,
substring test for strings, `TypeError` otherwise. -/
def pyIn (key : String) (v : JVal) : Except PyErr Bool :=
  match v with
  | .jdict entries => .ok (entries.any (fun p => p.1 == key))
  | .jarr l =>
    .ok (l.any (fun x => match x with | .jstr s => s == key | _ => false))
  | .jstr s => .ok (decide (key.data <:+: s.data))
  | _ => .error .typeError

/-- `x[0]`: first element of a list or string (`IndexError` when empty),
`KeyError` for dicts (integer key lookup), `TypeError` otherwise. -/
def pyIndexZero (v : JVal) : Except PyErr JVal :=
  match v with
  | .jarr (x :: _) => .ok x
  | .jarr [] => .error .indexError
  | .jstr s =>
    match s.data with
    | c :: _ => .ok (.jstr (String.mk [c]))
    | [] => .error .indexError
  | .jdict _ => .error .keyError
  | _ => .error .typeError

/-- `for item in x`: lists iterate their elements, strings their characters,
dicts their keys; other values raise `TypeError`. -/
def pyIter : JVal → Except PyErr (List JVal)
  | .jarr l => .ok l
  | .jstr s => .ok (s.data.map (fun c => .jstr (String.mk [c])))
  | .jdict entries => .ok (entries.map (fun p => .jstr p.1))
  | _ => .error .typeError

/-- Decimal string accepted by Python `float(...)`: optional sign, digits
with an optional fractional part (scientific notation, `inf`/`nan` and
underscores are not modelled; they do not occur in the inputs considered). -/
def parseFloatDigits : List Char → Option ℚ
  | s =>
    let (intPart, rest) := s.span isAsciiDigit
    match rest with
    | [] =>
      if intPart.isEmpty then none
      else some ((intPart.foldl (fun a c => a * 10 + (c.toNat - 48)) 0 : Nat) : ℚ)
    | '.' :: fracRest =>
      if fracRest.any (fun c => !isAsciiDigit c) then none
      else if intPart.isEmpty && fracRest.isEmpty then none
      else
        let ip : Nat := intPart.foldl (fun a c => a * 10 + (c.toNat - 48)) 0
        let fp : Nat := fracRest.foldl (fun a c => a * 10 + (c.toNat - 48)) 0
        some ((ip : ℚ) + (fp : ℚ) / ((10 : ℚ) ^ fracRest.length))
    | _ => none

def parseFloat (s : String) : Option ℚ :=
  match pyStrip s.data with
  | '+' :: rest => parseFloatDigits rest
  | '-' :: rest => (parseFloatDigits rest).map Neg.neg
  | rest => parseFloatDigits rest

/-- Python `float(x)`: numbers and booleans convert, numeric strings parse
(`ValueError` otherwise), `None`/dicts/lists raise `TypeError`. -/
def pyFloat : JVal → Except PyErr ℚ
  | .jnum q => .ok q
  | .jbool b => .ok (if b then 1 else 0)
  | .jstr s =>
    match parseFloat s with
    | some q => .ok q
    | none => .error .valueError
  | _ => .error .typeError

/-! ## `extract_line_items` -/

/-- The `InvoiceLineItem` dataclass. -/
structure InvoiceLineItem where
  description : String
  quantity : ℚ
  unit_price : ℚ
  total_price : ℚ
  line_number : Nat
  raw_description : String
deriving DecidableEq

/-- The four local variables assigned inside the extraction loop.  They are
function-scoped in Python: a value set in one iteration is still visible in
the next, and reading a variable that was never assigned raises
`UnboundLocalError` (a `NameError`). -/
structure ExtractLocals where
  description : Option JVal
  quantity : Option ℚ
  unit_price : Option ℚ
  total_price : Option ℚ

def ExtractLocals.initial : ExtractLocals := ⟨none, none, none, none⟩

/-- Reading a loop local: `UnboundLocalError` when it was never assigned. -/
def readLocal {α : Type} : Option α → Except PyErr α
  | some a => .ok a
  | none => .error .nameError

/-- `item.get('Description', {}).get('valueString', '') or
item.get('description', '') or item.get('ProductCode', {}).get('valueString', '')`
with Python's short-circuiting `or` (the chain returns its last operand when
all earlier operands are falsy). -/
def extractDescriptionField (item : List (String × JVal)) : Except PyErr JVal := do
  let a1 ← pyGet (dGet item "Description" (.jdict [])) "valueString" (.jstr "")
  if pyTruthy a1 then return a1
  let a2 := dGet item "description" (.jstr "")
  if pyTruthy a2 then return a2
  pyGet (dGet item "ProductCode" (.jdict [])) "valueString" (.jstr "")

/-- `float(item.get(K1, {}).get(K2, 0) or item.get(k, 0) or LAST)`. -/
def extractNumField (item : List (String × JVal)) (k1 k2 k : String)
    (last : ℚ) : Except PyErr ℚ := do
  let b1 ← pyGet (dGet item k1 (.jdict [])) k2 (.jnum 0)
  if pyTruthy b1 then pyFloat b1
  else
    let b2 := dGet item k (.jnum 0)
    if pyTruthy b2 then pyFloat b2 else pyFloat (.jnum last)

/-- The tail of the loop body: `if description: line_items.append(
InvoiceLineItem(description=clean_and_normalize_description(description),
...))`.  Evaluation order: `description` is read first (possibly unbound),
normalisation happens before the numeric locals are read, and
`clean_and_normalize_description` on a non-string raises `AttributeError`
(`.lower()` does not exist on it). -/
def buildItemIfDescribed (loc : ExtractLocals) (i : Nat) :
    Except PyErr (Option InvoiceLineItem) := do
  let d ← readLocal loc.description
  if pyTruthy d then
    match d with
    | .jstr s => do
      let q ← readLocal loc.quantity
      let u ← readLocal loc.unit_price
      let t ← readLocal loc.total_price
      return some ⟨clean_and_normalize_description s, q, u, t, i + 1, s⟩
    | _ => .error .attributeError
  else
    return none

/-- One iteration of the extraction loop over `(i, item)`: the `try` body
with assignments guarded by `isinstance(item, dict)`, and the
`except (ValueError, TypeError, KeyError)` handler that logs a warning and
`continue`s (keeping whatever locals were already assigned).  Exceptions of
other classes (`AttributeError`, `UnboundLocalError`) propagate and abort
the whole extraction. -/
def extractLoopStep (loc : ExtractLocals) (i : Nat) (item : JVal) :
    Except PyErr (ExtractLocals × Option InvoiceLineItem) :=
  let finish (loc : ExtractLocals) :
      Except PyErr (ExtractLocals × Option InvoiceLineItem) :=
    match buildItemIfDescribed loc i with
    | .ok r => .ok (loc, r)
    | .error e =>
      if e.isCaughtByItemHandler then .ok (loc, none) else .error e
  match item with
  | .jdict entries =>
    (match extractDescriptionField entries with
     | .error e => if e.isCaughtByItemHandler then .ok (loc, none) else .error e
     | .ok dsc =>
       let loc := { loc with description := some dsc }
       match extractNumField entries "Quantity" "valueNumber" "quantity" 1 with
       | .error e =>
         if e.isCaughtByItemHandler then .ok (loc, none) else .error e
       | .ok q =>
         let loc := { loc with quantity := some q }
         match extractNumField entries "UnitPrice" "valueNumber" "unit_price" 0 with
         | .error e =>
           if e.isCaughtByItemHandler then .ok (loc, none) else .error e
         | .ok u =>
           let loc := { loc with unit_price := some u }
           match extractNumField entries "Amount" "valueNumber" "total" (q * u) with
           | .error e =>
             if e.isCaughtByItemHandler then .ok (loc, none) else .error e
           | .ok t =>
             let loc := { loc with total_price := some t }
             finish loc)
  | _ => finish loc

/-- The loop `for i, item in enumerate(items)`. -/
def extractLoop (loc : ExtractLocals) (i : Nat) :
    List JVal → Except PyErr (List InvoiceLineItem)
  | [] => .ok []
  | item :: rest => do
    let (loc', emitted) ← extractLoopStep loc i item
    let tail ← extractLoop loc' (i + 1) rest
    match emitted with
    | some li => return li :: tail
    | none => return tail

/-- Selection of the raw `items` value: the direct `'Items'` shape, the full
`analyzeResult` envelope, or an empty list. -/
def selectItems (invoice : JVal) : Except PyErr JVal := do
  if (← pyIn "Items" invoice) then
    jGetItem invoice "Items"
  else if (← pyIn "analyzeResult" invoice) then do
    let ar ← jGetItem invoice "analyzeResult"
    let docs ← pyGet ar "documents" (.jarr [])
    if pyTruthy docs then do
      let d0 ← pyIndexZero docs
      if (← pyIn "fields" d0) then do
        let fields ← jGetItem d0 "fields"
        let itemsV ← pyGet fields "Items" (.jdict [])
        pyGet itemsV "valueArray" (.jarr [])
      else
        return .jarr []
    else
      return .jarr []
  else
    return .jarr []

/-- `ProductMatchingPipeline.extract_line_items`.  Returns `.error e` when
the Python function would raise an uncaught exception `e`. -/
def extract_line_items (invoice : JVal) : Except PyErr (List InvoiceLineItem) := do
  let itemsV ← selectItems invoice
  let items ← pyIter itemsV
  extractLoop .initial 0 items

instance {ε α : Type} [DecidableEq ε] [DecidableEq α] :
    DecidableEq (Except ε α) := fun x y =>
  match x, y with
  | .ok a, .ok b =>
    if h : a = b then .isTrue (by rw [h])
    else .isFalse (fun hh => h (Except.ok.inj hh))
  | .error a, .error b =>
    if h : a = b then .isTrue (by rw [h])
    else .isFalse (fun hh => h (Except.error.inj hh))
  | .ok _, .error _ => .isFalse (fun hh => Except.noConfusion hh)
  | .error _, .ok _ => .isFalse (fun hh => Except.noConfusion hh)

/-! ## Candidate search (`search_similar_products`)

The ChromaDB collection is an external collaborator; we model
`collection.query(query_texts=[q], n_results=k)` as an oracle
`String → Nat → Except String QueryResult` (`.error` = any exception, which
the source catches and turns into `[]`).  `QueryResult` is the single-query
slice of the ChromaDB response (`results['documents'][0]` etc.);
`distances = none` models a response without a `'distances'` key. -/

structure ChromaMeta where
  product_id : Int
  product_code : String
  product_name : String
  description_type : String
deriving DecidableEq, Inhabited

structure QueryResult where
  documents : List String
  metadatas : List ChromaMeta
  distances : Option (List ℚ)
deriving DecidableEq

/-- The candidate dict built per result row (`'similarity_score': 1.0 -
distance  # Convert distance to similarity` — no clamping). -/
structure Candidate where
  product_id : Int
  product_code : String
  product_name : String
  matched_description : String
  description_type : String
  similarity_score : ℚ
deriving DecidableEq

/-- The result-formatting loop of `search_similar_products`:
`distance = results['distances'][0][i] if 'distances' in results else 0.0`,
`similarity_score = 1.0 - distance`. -/
def formatSimilarProducts (r : QueryResult) : List Candidate :=
  (List.range r.documents.length).map fun i =>
    let md := r.metadatas.getD i default
    ⟨md.product_id, md.product_code, md.product_name, r.documents.getD i "",
     md.description_type,
     1 - (match r.distances with | some ds => ds.getD i 0 | none => 0)⟩

/-- `ProductMatchingPipeline.search_similar_products`.  There is no
empty-description guard: the index is queried for every
`query_description`.  A metadata/distance list shorter than the document
list raises `IndexError` inside the loop, which the surrounding
`except Exception` turns into `[]`. -/
def search_similar_products (index : String → Nat → Except String QueryResult)
    (query_description : String) (top_k : Nat) : List Candidate :=
  match index query_description top_k with
  | .error _ => []
  | .ok r =>
    if r.documents.isEmpty then []
    else if r.metadatas.length < r.documents.length then []
    else if (match r.distances with
             | some ds => decide (ds.length < r.documents.length)
             | none => false) then []
    else formatSimilarProducts r

/-! ## AI disambiguation (`ai_resolve_best_match`) -/

/-- The `ProductMatch` dataclass. -/
structure ProductMatch where
  product_id : Int
  product_code : String
  product_name : String
  standardized_description : String
  confidence_score : ℚ
  match_type : String
  alternative_descriptions : List String
deriving DecidableEq

/-- Python `==` between a parsed-JSON value and the candidate's integer
`product_id` (`True == 1` holds in Python because `bool` is an `int`
subclass; values of other types compare unequal without raising). -/
def pyEqNumInt (v : JVal) (i : Int) : Bool :=
  match v with
  | .jnum q => q == (i : ℚ)
  | .jbool b => (if b then (1 : Int) else 0) == i
  | _ => false

/-- `ProductMatchingPipeline.ai_resolve_best_match`.  The LLM chain
(`prompt | llm | StrOutputParser` followed by `json.loads`) is the oracle
`chat : String → List Candidate → Except PyErr JVal`; it receives the raw
invoice description and the top-5 candidate slice used to build the prompt,
and returns the parsed JSON reply (`.error` = unparsable reply or any
other exception, all caught by the `except Exception` block).  The
membership check `next((c for c in candidates if ...), None)` scans the
FULL candidate list.  The confidence is stored as returned, with no [0,1]
validation.  (A non-numeric `confidence_score` would also be stored
verbatim by Python; here it is folded into the failure case, which no
claim exercises.) -/
def ai_resolve_best_match
    (llm : Option (String → List Candidate → Except PyErr JVal))
    (invoice_description : String) (candidates : List Candidate) :
    Option ProductMatch :=
  match llm with
  | none => none
  | some chat =>
    if candidates.isEmpty then none else
    match chat invoice_description (candidates.take 5) with
    | .error _ => none
    | .ok ai_result =>
      match jGetItem ai_result "best_match_product_id" with
      | .error _ => none
      | .ok bestId =>
        match candidates.find? (fun c => pyEqNumInt bestId c.product_id) with
        | none => none
        | some c =>
          match jGetItem ai_result "confidence_score" with
          | .error _ => none
          | .ok confV =>
            match confV with
            | .jnum conf =>
              some ⟨c.product_id, c.product_code, c.product_name,
                    c.matched_description, conf, "ai_resolved",
                    candidates.map (·.matched_description)⟩
            | _ => none

/-! ## Match Resolver (`match_invoice_line_items`) -/

/-- One entry of the `matched_items` result list. -/
structure MatchedLineItem where
  line_item : InvoiceLineItem
  matched_product : Option ProductMatch
  candidates : List Candidate
  needs_review : Bool
deriving DecidableEq

/-- The per-line body of the `match_invoice_line_items` loop: search with
the normalized description (`top_k=5`), auto-accept the first candidate as
a `'semantic'` match when its similarity exceeds `0.9`, otherwise hand the
raw description and the candidates to the AI step; `needs_review` is
`best_match is None or best_match.confidence_score < 0.7`; the result keeps
the top-3 candidates. -/
def resolve_line (index : String → Nat → Except String QueryResult)
    (llm : Option (String → List Candidate → Except PyErr JVal))
    (li : InvoiceLineItem) : MatchedLineItem :=
  let candidates := search_similar_products index li.description 5
  let best_match : Option ProductMatch :=
    match candidates with
    | [] => none
    | c :: _ =>
      if c.similarity_score > 9/10 then
        some ⟨c.product_id, c.product_code, c.product_name,
              c.matched_description, c.similarity_score, "semantic",
              candidates.map (·.matched_description)⟩
      else
        ai_resolve_best_match llm li.raw_description candidates
  { line_item := li
    matched_product := best_match
    candidates := candidates.take 3
    needs_review :=
      match best_match with
      | none => true
      | some m => decide (m.confidence_score < 7/10) }

/-- `ProductMatchingPipeline.match_invoice_line_items`: extract, then
resolve each line. -/
def match_invoice_line_items (index : String → Nat → Except String QueryResult)
    (llm : Option (String → List Candidate → Except PyErr JVal))
    (invoice : JVal) : Except PyErr (List MatchedLineItem) := do
  let items ← extract_line_items invoice
  return items.map (resolve_line index llm)

/-! ## `vector_service.py`: `_format_search_results` and
`search_similar_documents` -/

/-- The metadata keys `_format_search_results` reads (absent keys fall back
to the `.get` defaults). -/
structure VsMeta where
  filename : Option String
  pdf_type : Option String
  chunk_index : Option Nat
  document_id : Option String
deriving DecidableEq, Inhabited

structure VsSearchHit where
  document : String
  metadata : VsMeta
  similarity_score : ℚ
  filename : String
  pdf_type : String
  chunk_index : Nat
  document_id : String
deriving DecidableEq

/-- `VectorService._format_search_results` (single-query slice):
`metadata = metadatas[i] if i < len(metadatas) else {}`,
`distance = distances[i] if i < len(distances) else 1.0`,
`similarity_score = max(0, 1 - distance)` — clamped below at 0 only. -/
def format_search_results (documents : List String) (metadatas : List VsMeta)
    (distances : List ℚ) : List VsSearchHit :=
  (List.range documents.length).map fun i =>
    let md := metadatas.getD i default
    let d := distances.getD i 1
    { document := documents.getD i ""
      metadata := md
      similarity_score := max 0 (1 - d)
      filename := md.filename.getD "unknown"
      pdf_type := md.pdf_type.getD "unknown"
      chunk_index := md.chunk_index.getD 0
      document_id := md.document_id.getD "unknown" }

/-- The merge step of `VectorService.search_similar_documents` when no
`pdf_type` is given: per-collection results are concatenated, sorted by
`similarity_score` descending (Python's stable `list.sort(reverse=True)`),
and truncated to `top_k`. -/
def search_similar_documents_merge (perCollection : List (List VsSearchHit))
    (top_k : Nat) : List VsSearchHit :=
  ((perCollection.foldl (· ++ ·) []).mergeSort
      (fun a b => b.similarity_score ≤ a.similarity_score)).take top_k

/-! ## Concrete sample data used in witnesses and counterexamples -/

def sampleMeta : ChromaMeta := ⟨7, "PC7", "Prod 7", "standardized"⟩

def sampleCandidate (sim : ℚ) : Candidate :=
  ⟨7, "PC7", "Prod 7", "galvanized bolt", "standardized", sim⟩

/-- An index oracle returning the same single-query response for every
query (including the empty one). -/
def constIndex (r : QueryResult) : String → Nat → Except String QueryResult :=
  fun _ _ => .ok r

def indexTop95 : String → Nat → Except String QueryResult :=
  constIndex ⟨["galvanized bolt"], [sampleMeta], some [1/20]⟩

def indexTop60 : String → Nat → Except String QueryResult :=
  constIndex ⟨["galvanized bolt"], [sampleMeta], some [2/5]⟩

def indexNoHits : String → Nat → Except String QueryResult :=
  constIndex ⟨[], [], some []⟩

def indexDist2 : String → Nat → Except String QueryResult :=
  constIndex ⟨["galvanized bolt"], [sampleMeta], some [2]⟩

/-- An LLM oracle whose reply parses to the fixed JSON value `v`. -/
def constLlm (v : JVal) : Option (String → List Candidate → Except PyErr JVal) :=
  some fun _ _ => .ok v

def llmConf65 : Option (String → List Candidate → Except PyErr JVal) :=
  constLlm (.jdict [("best_match_product_id", .jnum 7),
                    ("confidence_score", .jnum (13/20)),
                    ("reasoning", .jstr "closest")])

def llmConf150 : Option (String → List Candidate → Except PyErr JVal) :=
  constLlm (.jdict [("best_match_product_id", .jnum 7),
                    ("confidence_score", .jnum (3/2)),
                    ("reasoning", .jstr "sure")])

def sampleLine : InvoiceLineItem := ⟨"galvanized bolt", 1, 2, 2, 1, "Galv Bolt"⟩

/-! ## Feedback Loop (`update_from_user_feedback`,
`_add_alternative_description`)

The SQL store is modelled as explicit row lists; `cursor.execute` of the
`SELECT COUNT(*)`/`INSERT` statements becomes list counting/appending. -/

structure ProductDescRow where
  productId : Int
  alternativeDescription : String
  descriptionType : String
  supplier : Option String
deriving DecidableEq

structure TrainingRow where
  invoiceDescription : String
  correctProductId : Int
  isUserCorrected : Bool
  invoiceSupplier : Option String
  createdBy : String
deriving DecidableEq

structure SqlDb where
  productDescriptions : List ProductDescRow
  training : List TrainingRow
deriving DecidableEq

/-- `ProductMatchingPipeline._add_alternative_description`: `SELECT COUNT(*)
FROM ProductDescriptions WHERE ProductId = ? AND AlternativeDescription = ?`,
and `INSERT` only when that count is zero. -/
def add_alternative_description (db : SqlDb) (product_id : Int)
    (description : String) (desc_type : String) (supplier : Option String) :
    SqlDb :=
  if (db.productDescriptions.countP
        (fun row => row.productId == product_id &&
          row.alternativeDescription == description)) == 0 then
    { db with productDescriptions :=
        db.productDescriptions ++ [⟨product_id, description, desc_type, supplier⟩] }
  else db

/-- `ProductMatchingPipeline.update_from_user_feedback`: unconditionally
append the training-log row (`INSERT INTO ProductMatchingTraining ...`),
then the conditional alternative-description insert.  (The subsequent
`build_vector_index(rebuild=True)` acts on the separate Chroma state and is
modelled by `build_vector_index` below.) -/
def update_from_user_feedback (db : SqlDb) (invoice_description : String)
    (correct_product_id : Int) (supplier : Option String) : SqlDb :=
  let db1 := { db with training := db.training ++
    [⟨invoice_description, correct_product_id, true, supplier, "system"⟩] }
  add_alternative_description db1 correct_product_id invoice_description
    "user_feedback" supplier

/-! ## Catalog Index construction (`build_vector_index`) -/

structure AltDesc where
  description : String
  type : String
  supplier : Option String
deriving DecidableEq

/-- One product as loaded by `get_product_embeddings_from_db`. -/
structure DbProduct where
  product_id : Int
  product_code : String
  product_name : String
  standardized_description : String
  brand : Option String
  category : Option String
  alternative_descriptions : List AltDesc
deriving DecidableEq

/-- One `(id, document, metadata)` triple handed to `collection.add`.
`supplier = none` models the standardized-description metadata, which has
no `supplier` key. -/
structure ChromaEntry where
  id : String
  document : String
  product_id : Int
  product_code : String
  product_name : String
  description_type : String
  supplier : Option String
  category : String
  brand : String
deriving DecidableEq

/-- The per-product body of the documents/metadatas/ids loop: the
standardized description under `product_{id}_std`, then one entry per
alternative description under `product_{id}_{type}_{len(ids)}`, where
`len(ids)` is the number of ids accumulated so far over the whole batch. -/
def productEntries (acc : List ChromaEntry) (p : DbProduct) :
    List ChromaEntry :=
  let std : ChromaEntry :=
    { id := "product_" ++ toString p.product_id ++ "_std"
      document := p.standardized_description
      product_id := p.product_id
      product_code := p.product_code
      product_name := p.product_name
      description_type := "standardized"
      supplier := none
      category := p.category.getD ""
      brand := p.brand.getD "" }
  p.alternative_descriptions.foldl
    (fun acc alt =>
      acc ++ [{ id := "product_" ++ toString p.product_id ++ "_" ++ alt.type
                  ++ "_" ++ toString acc.length
                document := alt.description
                product_id := p.product_id
                product_code := p.product_code
                product_name := p.product_name
                description_type := alt.type
                supplier := some (alt.supplier.getD "")
                category := p.category.getD ""
                brand := p.brand.getD "" }])
    (acc ++ [std])

/-- The whole batch built from the catalog products (in load order). -/
def catalogEntries (products : List DbProduct) : List ChromaEntry :=
  products.foldl productEntries []

/-- `ProductMatchingPipeline.build_vector_index`.  The collection state is
`Option (List ChromaEntry)` (`none` = collection absent).  With
`rebuild=True` the collection is dropped (a failure of the delete is
swallowed by the bare `except`), `get_or_create_collection` recreates it
empty, and — unless the catalog yields no products, in which case the
function returns after a warning — the batch is added.  (On the
`rebuild=False` path a duplicate-id failure of `collection.add` would be
swallowed by the outer `except`; the claims only exercise
`rebuild=True`, where the collection is freshly emptied.) -/
def build_vector_index (st : Option (List ChromaEntry))
    (products : List DbProduct) (rebuild : Bool) : Option (List ChromaEntry) :=
  let st1 := if rebuild then none else st
  let st2 := match st1 with | none => some [] | some l => some l
  if products.isEmpty then st2
  else match st2 with
       | some l => some (l ++ catalogEntries products)
       | none => none

/-! ## `vector_service._split_text_into_chunks` -/

/-- Python `text.rfind(' ', start, end)`: the largest index `i` with
`start ≤ i < min end len(text)` and `text[i] == ' '` (`none` for `-1`). -/
def pyRfindSpace (text : List Char) (start fin : Nat) : Option Nat :=
  (text.take fin).enum.foldl
    (fun acc p => if start ≤ p.1 && p.2 == ' ' then some p.1 else acc) none

/-- One iteration of the `while start < len(text)` loop body of
`_split_text_into_chunks`: the chunk appended this iteration (when
nonempty after `.strip()`) and the next value of `start`
(`start = end - chunk_overlap`, reset to `end` when negative). -/
def splitChunkStep (chunk_size chunk_overlap : Nat) (text : List Char)
    (start : Nat) : Option (List Char) × Nat :=
  let end0 := start + chunk_size
  let end1 :=
    if end0 < text.length then
      match pyRfindSpace text start end0 with
      | some ls => if start < ls then ls else end0
      | none => end0
    else end0
  let chunk := pyStrip ((text.take end1).drop start)
  (if chunk.isEmpty then none else some chunk,
   if end1 < chunk_overlap then end1 else end1 - chunk_overlap)

/-- The `while` loop, fuel-bounded: `some chunks` when the loop exits
normally within `fuel` iterations, `none` when it is still running. -/
def splitChunksLoop (chunk_size chunk_overlap : Nat) (text : List Char) :
    Nat → Nat → List (List Char) → Option (List (List Char))
  | 0, _, _ => none
  | fuel + 1, start, acc =>
    if start < text.length then
      let r := splitChunkStep chunk_size chunk_overlap text start
      splitChunksLoop chunk_size chunk_overlap text fuel r.2
        (acc ++ r.1.toList)
    else some acc

/-- `VectorService._split_text_into_chunks` with the source's configuration
`chunk_size=1000`, `chunk_overlap=200`, observed through a fuel bound on
the loop. -/
def split_text_into_chunks (fuel : Nat) (text : List Char) :
    Option (List (List Char)) :=
  if text.length ≤ 1000 then some [text]
  else splitChunksLoop 1000 200 text fuel 0 []

/-- The non-terminating input: 400 `'a'`, one space at index 400, 800 more
`'a'` — 1201 characters. -/
def stuckText : List Char :=
  List.replicate 400 'a' ++ [' '] ++ List.replicate 800 'a'

/-- A sample catalog product with one alternative description, used to pin
down the id/document/metadata construction of the index batch. -/
def sampleProduct : DbProduct :=
  ⟨7, "PC7", "Prod 7", "galvanized bolt 75mm", some "ACME", some "Fasteners",
   [⟨"Galv Bolt", "user_feedback", some "BuildCo"⟩]⟩

/-! # Theorems about the Text Normalizer (claim C3) -/

/-- **C3** (counterexample).  The claim "the text normalizer is idempotent:
normalize(normalize(x)) = normalize(x) for every input x" is false at the
concrete input `"treated"`: the abbreviation rule `'treated' → 'treated h3'`
matches its own output again, so `normalize("treated") = "treated h3"` while
`normalize(normalize("treated")) = "treated h3 h3"`. -/
theorem C3_normalize_not_idempotent :
    clean_and_normalize_description (clean_and_normalize_description "treated") ≠
      clean_and_normalize_description "treated" := by decide

/-- **C3** (amended).  `clean_and_normalize_description` maps empty or null
input to the empty string without error and is deterministic, but it is not
idempotent in general: the abbreviation entries `'treated' → 'treated h3'`
and `'h4' → 'treated h4'` reintroduce their own trigger word, so each
application appends another `h3` (`normalize("treated") = "treated h3"`,
`normalize²("treated") = "treated h3 h3"`).  Idempotence does hold on inputs
whose normal form contains no abbreviation key, e.g. the spec's example
`"2 X 4 Galv Timber"`, which is also case-insensitively equal to
`normalize("2x4 galvanized timber")`. -/
theorem C3_normalize_empty_null_and_examples :
    clean_and_normalize_description "" = ""
    ∧ clean_and_normalize_opt none = ""
    ∧ clean_and_normalize_description "treated" = "treated h3"
    ∧ clean_and_normalize_description (clean_and_normalize_description "treated") =
        "treated h3 h3"
    ∧ clean_and_normalize_description "2 X 4 Galv Timber" = "2x4 galvanized timber"
    ∧ clean_and_normalize_description
          (clean_and_normalize_description "2 X 4 Galv Timber") =
        clean_and_normalize_description "2 X 4 Galv Timber"
    ∧ clean_and_normalize_description "2 X 4 Galv Timber" =
        clean_and_normalize_description "2x4 galvanized timber" := by
  refine ⟨rfl, rfl, ?_, ?_, ?_, ?_, ?_⟩ <;> decide

/-! # Theorems about the Line Item Extractor (claims C4, C5) -/

/-- **C4** (code bug).  The claim says a malformed (non-dict) item is skipped
with a warning and extraction never raises.  The code guards the field
assignments with `isinstance(item, dict)` but the subsequent
`if description:` is outside that guard, and `except (ValueError, TypeError,
KeyError)` does not catch `UnboundLocalError`.  Hence on
`{'Items': ['junk']}` the first iteration reads the never-assigned local
`description` and the whole extraction raises (modelled as
`.error .nameError`); and when the malformed item follows a well-formed one,
the stale locals of the previous item are re-emitted as a duplicate line
item instead of being skipped. -/
theorem C4_extraction_crashes_or_duplicates_on_malformed_item :
    extract_line_items (.jdict [("Items", .jarr [.jstr "junk"])]) =
      .error .nameError
    ∧ extract_line_items (.jdict [("Items", .jarr
        [.jdict [("description", .jstr "widget"), ("quantity", .jnum 2),
                 ("unit_price", .jnum 3)],
         .jstr "junk"])]) =
      .ok [⟨"widget", 2, 3, 6, 1, "widget"⟩, ⟨"widget", 2, 3, 6, 2, "widget"⟩] := by
  constructor <;> with_unfolding_all decide

/-- **C5** (counterexample).  The claim says a missing `unit_price` field
defaults to `1.0`.  On the concrete item
`{'description': 'widget', 'quantity': 2}` the code's chain
`float(item.get('UnitPrice', {}).get('valueNumber', 0) or
item.get('unit_price', 0) or 0.0)` yields `0.0`, not `1.0` (and therefore
`total_price = 2 * 0 = 0` as well). -/
theorem C5_missing_unit_price_defaults_to_zero :
    extract_line_items (.jdict [("Items", .jarr
        [.jdict [("description", .jstr "widget"), ("quantity", .jnum 2)]])]) =
      .ok [⟨"widget", 2, 0, 0, 1, "widget"⟩]
    ∧ (0 : ℚ) ≠ 1 := by
  constructor
  · with_unfolding_all decide
  · norm_num

/-- **C5** (amended).  Extraction field-defaulting policy, as the code
implements it, for a simple-format item with a non-empty description and
non-zero numeric fields: when `quantity` and `unit_price` are present and
`total_price` (`Amount`/`total`) is absent, the extracted
`total_price = quantity * unit_price`; a missing `unit_price` defaults to
`0.0` (not `1.0`); a missing `quantity` defaults to `1.0` (not `0`). -/
theorem C5_field_defaulting_policy (desc : String) (q u : ℚ)
    (hd : desc ≠ "") (hq : q ≠ 0) (hu : u ≠ 0) :
    extract_line_items (.jdict [("Items", .jarr
        [.jdict [("description", .jstr desc), ("quantity", .jnum q),
                 ("unit_price", .jnum u)]])]) =
      .ok [⟨clean_and_normalize_description desc, q, u, q * u, 1, desc⟩]
    ∧ extract_line_items (.jdict [("Items", .jarr
        [.jdict [("description", .jstr desc), ("quantity", .jnum q)]])]) =
      .ok [⟨clean_and_normalize_description desc, q, 0, 0, 1, desc⟩]
    ∧ extract_line_items (.jdict [("Items", .jarr
        [.jdict [("description", .jstr desc), ("unit_price", .jnum u)]])]) =
      .ok [⟨clean_and_normalize_description desc, 1, u, 1 * u, 1, desc⟩] := by
  refine ⟨?_, ?_, ?_⟩ <;>
    simp [extract_line_items, selectItems, pyIn, jGetItem, pyIter, extractLoop,
      extractLoopStep, extractDescriptionField, extractNumField, pyGet, dGet,
      pyTruthy, pyFloat, buildItemIfDescribed, readLocal, hd, hq, hu,
      ExtractLocals.initial, List.find?, bind, Except.bind, pure, Except.pure, bne]

/-- **C5** (witness).  The amended defaulting policy at the concrete item
`{'description': 'widget', 'quantity': 2, 'unit_price': 3}` and its
field-dropping variants. -/
theorem C5_field_defaulting_policy_witness :
    extract_line_items (.jdict [("Items", .jarr
        [.jdict [("description", .jstr "widget"), ("quantity", .jnum 2),
                 ("unit_price", .jnum 3)]])]) =
      .ok [⟨clean_and_normalize_description "widget", 2, 3, 2 * 3, 1, "widget"⟩] :=
  (C5_field_defaulting_policy "widget" 2 3 (by decide) (by norm_num)
    (by norm_num)).1

/-! # Theorems about the Match Resolver (claim C1) -/

/-- **C1** (confirmed).  The decision policy of the `match_invoice_line_items`
loop body: (1) `matched_product` is `None` when the candidate set is empty,
the auto-accepted `'semantic'` match with `confidence = similarity` of the
top (first) candidate when that similarity exceeds `0.9`, and otherwise
exactly what the AI-disambiguation step returns (so the AI step is invoked
precisely in the ambiguous case); (2) `needs_review` is true exactly when no
match was produced or the match's `confidence_score` is below `0.7`;
(3) in the high-confidence case the result does not depend on the LLM
oracle at all — no AI call is made; (4) empty candidate set ⇒ `None` match
and review; and concretely (5) a top candidate at similarity `0.95` with a
never-answering LLM gives a `'semantic'` match and `needs_review = false`;
(6) an AI-resolved match at confidence `0.65` gives `needs_review = true`;
(7) zero candidates give `matched_product = None` and `needs_review = true`. -/
theorem C1_resolver_decision_policy
    (index : String → Nat → Except String QueryResult)
    (llm llm' : Option (String → List Candidate → Except PyErr JVal))
    (li : InvoiceLineItem) :
    ((resolve_line index llm li).matched_product =
      (match search_similar_products index li.description 5 with
       | [] => none
       | c :: rest =>
         if c.similarity_score > 9/10 then
           some ⟨c.product_id, c.product_code, c.product_name,
                 c.matched_description, c.similarity_score, "semantic",
                 (c :: rest).map (fun x => x.matched_description)⟩
         else ai_resolve_best_match llm li.raw_description (c :: rest)))
    ∧ ((resolve_line index llm li).needs_review = true ↔
        ((resolve_line index llm li).matched_product = none ∨
         ∃ m, (resolve_line index llm li).matched_product = some m ∧
              m.confidence_score < 7/10))
    ∧ (∀ c rest, search_similar_products index li.description 5 = c :: rest →
        c.similarity_score > 9/10 →
        resolve_line index llm li = resolve_line index llm' li)
    ∧ (search_similar_products index li.description 5 = [] →
        (resolve_line index llm li).matched_product = none ∧
        (resolve_line index llm li).needs_review = true)
    ∧ ((resolve_line indexTop95 (constLlm .jnull) sampleLine).matched_product =
        some ⟨7, "PC7", "Prod 7", "galvanized bolt", 1 - 1/20, "semantic",
              ["galvanized bolt"]⟩
       ∧ (resolve_line indexTop95 (constLlm .jnull) sampleLine).needs_review = false)
    ∧ ((resolve_line indexTop60 llmConf65 sampleLine).matched_product =
        some ⟨7, "PC7", "Prod 7", "galvanized bolt", 13/20, "ai_resolved",
              ["galvanized bolt"]⟩
       ∧ (resolve_line indexTop60 llmConf65 sampleLine).needs_review = true)
    ∧ ((resolve_line indexNoHits llmConf65 sampleLine).matched_product = none
       ∧ (resolve_line indexNoHits llmConf65 sampleLine).needs_review = true) := by
  refine ⟨?_, ?_, ?_, ?_, ?_, ?_, ?_⟩
  · rcases h : search_similar_products index li.description 5 with _ | ⟨c, rest⟩
    · simp [resolve_line, h]
    · simp [resolve_line, h]
  · rcases hcands : search_similar_products index li.description 5 with _ | ⟨c, rest⟩
    · simp [resolve_line, hcands]
    · by_cases hgt : c.similarity_score > 9/10
      · simp [resolve_line, hcands, hgt, decide_eq_true_eq]
      · cases hai : ai_resolve_best_match llm li.raw_description (c :: rest) with
        | none => simp [resolve_line, hcands, hgt, hai]
        | some m => simp [resolve_line, hcands, hgt, hai, decide_eq_true_eq]
  · intro c rest h hgt
    simp [resolve_line, h, hgt]
  · intro h
    simp [resolve_line, h]
  · constructor <;> with_unfolding_all decide
  · constructor <;> with_unfolding_all decide
  · constructor <;> with_unfolding_all decide

/-- **C1** (witness).  The no-AI-call conjunct applied at a concrete index
whose top candidate has similarity `0.95 = 1 - 1/20`: the result is the
same whether the LLM oracle answers with confidence `0.65` or with `null`. -/
theorem C1_resolver_decision_policy_witness :
    resolve_line indexTop95 llmConf65 sampleLine =
      resolve_line indexTop95 (constLlm .jnull) sampleLine :=
  (C1_resolver_decision_policy indexTop95 llmConf65 (constLlm .jnull)
      sampleLine).2.2.1 (sampleCandidate (1 - 1/20)) []
    (by with_unfolding_all decide) (by norm_num [sampleCandidate])

/-! # Theorems about the Candidate Ranker similarity scores (claim C2) -/

/-- **C2** (counterexample).  The claim says every returned similarity score
lies in `[0,1]` and equals `1 - distance` *clamped* to `[0,1]`.  For an
index response with distance `2` (e.g. the maximal cosine distance),
`search_similar_products` returns similarity `1 - 2 = -1`, which is below
`0` and differs from the clamped value `max 0 (1 - 2) = 0`: the pipeline's
formula `1.0 - distance` has no clamping at all. -/
theorem C2_similarity_unclamped_counterexample :
    (search_similar_products indexDist2 "widget" 5).map
        (fun c => c.similarity_score) = [-1]
    ∧ ¬ ((0 : ℚ) ≤ -1)
    ∧ ((-1 : ℚ) ≠ max 0 (1 - 2)) := by
  refine ⟨by with_unfolding_all decide, by norm_num, by norm_num⟩

/-- **C2** (amended).  For a successful index response with a distance list
covering the documents: (a) the pipeline's similarity scores are exactly
`1 - distance`, with no clamping; (b) they lie in `[0,1]` exactly when
distances do (in particular whenever every distance is in `[0,1]`); (c) the
candidates of one query are in non-increasing similarity order whenever the
index returns distances in non-decreasing order (the code itself performs no
per-query sort); (d) the `vector_service` formatter instead computes
`max(0, 1 - distance)`, clamped below at `0` but not above at `1`; and
(e) the cross-collection merge of `search_similar_documents` explicitly
sorts descending, so its output is always non-increasing. -/
theorem C2_similarity_formula_and_order
    (index : String → Nat → Except String QueryResult) (q : String) (k : Nat)
    (r : QueryResult) (ds : List ℚ)
    (hidx : index q k = .ok r)
    (hds : r.distances = some ds)
    (hm : r.documents.length ≤ r.metadatas.length)
    (hd : r.documents.length ≤ ds.length) :
    ((search_similar_products index q k).map (fun c => c.similarity_score) =
      (ds.take r.documents.length).map (fun d => 1 - d))
    ∧ ((∀ d ∈ ds, 0 ≤ d ∧ d ≤ 1) →
        ∀ c ∈ search_similar_products index q k,
          0 ≤ c.similarity_score ∧ c.similarity_score ≤ 1)
    ∧ (ds.Pairwise (· ≤ ·) →
        (search_similar_products index q k).Pairwise
          (fun a b => b.similarity_score ≤ a.similarity_score))
    ∧ (∀ docs mds dists,
        (format_search_results docs mds dists).map (fun h => h.similarity_score) =
          (List.range docs.length).map (fun i => max 0 (1 - dists.getD i 1)))
    ∧ (∀ docs mds dists, ∀ h ∈ format_search_results docs mds dists,
        0 ≤ h.similarity_score)
    ∧ (∀ colls k', (search_similar_documents_merge colls k').Pairwise
        (fun a b => b.similarity_score ≤ a.similarity_score)) := by
  have hm' : ¬ (r.metadatas.length < r.documents.length) := not_lt.mpr hm
  have hd' : ¬ (ds.length < r.documents.length) := not_lt.mpr hd
  have hsearch : search_similar_products index q k = formatSimilarProducts r := by
    unfold search_similar_products
    rw [hidx]
    by_cases hE : r.documents.isEmpty
    · have : r.documents = [] := List.isEmpty_iff.mp hE
      simp [hE, formatSimilarProducts, this]
    · simp [hE, hds, hm', hd']
  have hmap : (search_similar_products index q k).map (fun c => c.similarity_score) =
      (ds.take r.documents.length).map (fun d => 1 - d) := by
    rw [hsearch]
    unfold formatSimilarProducts
    rw [List.map_map]
    apply List.ext_getElem
    · simp [Nat.min_eq_left hd]
    · intro i h1 h2
      simp only [List.getElem_map, List.getElem_range, Function.comp_apply, hds,
        List.getElem_take]
      have hlen : i < ds.length := lt_of_lt_of_le (by simpa using h1) hd
      rw [List.getD_eq_getElem _ _ hlen]
  refine ⟨hmap, ?_, ?_, ?_, ?_, ?_⟩
  · intro hb c hc
    have hsim : c.similarity_score ∈
        (ds.take r.documents.length).map (fun d => 1 - d) := by
      rw [← hmap]; exact List.mem_map_of_mem _ hc
    rcases List.mem_map.mp hsim with ⟨d, hdm, hde⟩
    have hdds : d ∈ ds := List.mem_of_mem_take hdm
    rcases hb d hdds with ⟨h0, h1⟩
    constructor <;> [linarith [hde] ; linarith [hde]]
  · intro hp
    have h1 : (ds.take r.documents.length).Pairwise (· ≤ ·) :=
      List.Pairwise.sublist (List.take_sublist _ _) hp
    have h2 : ((ds.take r.documents.length).map (fun d => 1 - d)).Pairwise
        (fun a b => b ≤ a) := by
      rw [List.pairwise_map]
      exact h1.imp (fun h => by linarith)
    rw [← hmap] at h2
    exact (List.pairwise_map).mp h2
  · intro docs mds dists
    simp [format_search_results, List.map_map]
  · intro docs mds dists h hh
    simp only [format_search_results, List.mem_map, List.mem_range] at hh
    rcases hh with ⟨i, _, rfl⟩
    exact le_max_left _ _
  · intro colls k'
    have htr : ∀ a b c : VsSearchHit,
        (decide (b.similarity_score ≤ a.similarity_score)) = true →
        (decide (c.similarity_score ≤ b.similarity_score)) = true →
        (decide (c.similarity_score ≤ a.similarity_score)) = true := by
      intro a b c hab hbc
      simp only [decide_eq_true_eq] at *
      linarith
    have hto : ∀ a b : VsSearchHit,
        ((decide (b.similarity_score ≤ a.similarity_score)) ||
         (decide (a.similarity_score ≤ b.similarity_score))) = true := by
      intro a b
      simp [decide_eq_true_eq]
      exact le_total _ _
    have hs := @List.sorted_mergeSort VsSearchHit
      (fun a b => decide (b.similarity_score ≤ a.similarity_score)) htr hto
      (colls.foldl (· ++ ·) [])
    have hs' : ((colls.foldl (· ++ ·) []).mergeSort
        (fun a b => decide (b.similarity_score ≤ a.similarity_score))).Pairwise
        (fun a b => b.similarity_score ≤ a.similarity_score) :=
      hs.imp (fun h => of_decide_eq_true h)
    exact List.Pairwise.sublist (List.take_sublist _ _) hs'

/-- **C2** (witness).  The unclamped-similarity formula at the concrete
distance-2 response. -/
theorem C2_similarity_formula_and_order_witness :
    (search_similar_products indexDist2 "widget" 5).map
        (fun c => c.similarity_score) =
      (([2] : List ℚ).take (["galvanized bolt"] : List String).length).map
        (fun d => 1 - d) :=
  (C2_similarity_formula_and_order indexDist2 "widget" 5
      ⟨["galvanized bolt"], [sampleMeta], some [2]⟩ [2]
      rfl rfl (by decide) (by decide)).1

/-! # Theorems about AI disambiguation failure handling (claim C6) -/

/-- **C6** (counterexample).  The claim says an AI reply whose confidence is
outside `[0,1]` is treated as a failure.  On the reply
`{"best_match_product_id": 7, "confidence_score": 1.5, ...}` with candidate
product `7` present, `ai_resolve_best_match` returns a match carrying the
out-of-range confidence `1.5` verbatim — the code never validates the
confidence range.  (Note `1.5 ≥ 0.7`, so such a match even skips review.) -/
theorem C6_out_of_range_confidence_accepted :
    ai_resolve_best_match llmConf150 "Galv Bolt" [sampleCandidate (3/5)] =
      some ⟨7, "PC7", "Prod 7", "galvanized bolt", 3/2, "ai_resolved",
            ["galvanized bolt"]⟩
    ∧ ¬ ((3/2 : ℚ) ≤ 1) := by
  refine ⟨by with_unfolding_all decide, by norm_num⟩

/-- **C6** (amended).  `ai_resolve_best_match` treats an unparsable LLM
reply (any exception from the chain, including `json.loads` failures), a
reply that is not a dict with a `best_match_product_id` key, and a reply
naming a product id not present in the candidate set, as AI failures: it
returns no match and raises nothing.  It also returns no match when the LLM
is not configured or the candidate set is empty.  It does NOT validate the
confidence range: an in-candidate-set reply is accepted with whatever
numeric confidence it carries (see the counterexample). -/
theorem C6_ai_failure_routes_to_none
    (desc : String) (cands : List Candidate)
    (chatErr : String → List Candidate → Except PyErr JVal) (e : PyErr)
    (herr : ∀ d cs, chatErr d cs = .error e)
    (v : JVal) (bid : JVal)
    (hbid : jGetItem v "best_match_product_id" = .ok bid)
    (hnone : cands.find? (fun c => pyEqNumInt bid c.product_id) = none)
    (w : JVal) (ew : PyErr)
    (hw : jGetItem w "best_match_product_id" = .error ew) :
    (ai_resolve_best_match (some chatErr) desc cands = none)
    ∧ (ai_resolve_best_match (constLlm v) desc cands = none)
    ∧ (ai_resolve_best_match (constLlm w) desc cands = none)
    ∧ (ai_resolve_best_match none desc cands = none)
    ∧ (∀ llm, ai_resolve_best_match llm desc [] = none) := by
  refine ⟨?_, ?_, ?_, ?_, ?_⟩
  · by_cases hc : cands.isEmpty <;> simp [ai_resolve_best_match, hc, herr]
  · by_cases hc : cands.isEmpty <;>
      simp [ai_resolve_best_match, constLlm, hc, hbid, hnone]
  · by_cases hc : cands.isEmpty <;>
      simp [ai_resolve_best_match, constLlm, hc, hw]
  · simp [ai_resolve_best_match]
  · intro llm
    cases llm <;> simp [ai_resolve_best_match]

/-- **C6** (witness).  A reply naming the unknown product id `99` against
the singleton candidate set for product `7` resolves to no match. -/
theorem C6_ai_failure_routes_to_none_witness :
    ai_resolve_best_match
        (constLlm (.jdict [("best_match_product_id", .jnum 99)]))
        "Galv Bolt" [sampleCandidate (3/5)] = none :=
  (C6_ai_failure_routes_to_none "Galv Bolt" [sampleCandidate (3/5)]
      (fun _ _ => .error .valueError) .valueError (fun _ _ => rfl)
      (.jdict [("best_match_product_id", .jnum 99)]) (.jnum 99) rfl
      (by with_unfolding_all decide)
      (.jarr []) .typeError rfl).2.1

/-! # Theorems about the empty-description search (claim C7) -/

/-- **C7** (counterexample).  The claim says an empty normalized description
returns an empty candidate sequence without querying the index.  The code
has no such guard: with an index oracle that answers every query (the empty
one included) with one hit, `search_similar_products ""` returns that
nonempty candidate list, and its output differs between two oracles that
disagree at the empty query — the query IS issued. -/
theorem C7_empty_description_still_queries :
    search_similar_products indexTop95 "" 5 = [sampleCandidate (1 - 1/20)]
    ∧ search_similar_products indexTop95 "" 5 ≠ []
    ∧ search_similar_products indexTop95 "" 5 ≠
        search_similar_products indexNoHits "" 5 := by
  refine ⟨?_, ?_, ?_⟩ <;> with_unfolding_all decide

/-- **C7** (amended).  `search_similar_products` applies no
empty-description short-circuit: for every index oracle whose response to
the empty query is well-formed, the result on the empty description is the
formatted index response (which may be nonempty).  Upstream,
`extract_line_items` drops items whose raw description is falsy, but a
nonempty raw description may still normalize to the empty string and reach
the index. -/
theorem C7_no_empty_description_guard
    (index : String → Nat → Except String QueryResult) (k : Nat)
    (r : QueryResult) (ds : List ℚ)
    (hidx : index "" k = .ok r)
    (hds : r.distances = some ds)
    (hm : r.documents.length ≤ r.metadatas.length)
    (hd : r.documents.length ≤ ds.length) :
    search_similar_products index "" k = formatSimilarProducts r := by
  have hm' : ¬ (r.metadatas.length < r.documents.length) := not_lt.mpr hm
  have hd' : ¬ (ds.length < r.documents.length) := not_lt.mpr hd
  unfold search_similar_products
  rw [hidx]
  by_cases hE : r.documents.isEmpty
  · have : r.documents = [] := List.isEmpty_iff.mp hE
    simp [hE, formatSimilarProducts, this]
  · simp [hE, hds, hm', hd']

/-- **C7** (witness).  The empty query against the always-answering index
formats that index's single hit. -/
theorem C7_no_empty_description_guard_witness :
    search_similar_products indexTop95 "" 5 =
      formatSimilarProducts ⟨["galvanized bolt"], [sampleMeta], some [1/20]⟩ :=
  C7_no_empty_description_guard indexTop95 5
    ⟨["galvanized bolt"], [sampleMeta], some [1/20]⟩ [1/20]
    rfl rfl (by decide) (by decide)

/-! # Theorems about the Feedback Loop (claim C8) -/

/-- **C8** (confirmed).  Feedback insertion is idempotent on the
alternative-description store: `_add_alternative_description` applied twice
with the same `(product_id, description)` equals one application (for every
prior store state — the second call finds the pair present and inserts
nothing); the same holds through `update_from_user_feedback` for its
`ProductDescriptions` component (the training log, by design append-only,
does grow on each submission); and starting from a store without the pair,
two submissions leave exactly one row for that `(product_id,
description)`. -/
theorem C8_feedback_insert_idempotent
    (db : SqlDb) (pid : Int) (desc dtype : String) (sup : Option String) :
    (add_alternative_description
        (add_alternative_description db pid desc dtype sup) pid desc dtype sup =
      add_alternative_description db pid desc dtype sup)
    ∧ ((update_from_user_feedback
          (update_from_user_feedback db desc pid sup) desc pid
          sup).productDescriptions =
        (update_from_user_feedback db desc pid sup).productDescriptions)
    ∧ (db.productDescriptions.countP
          (fun row => row.productId == pid &&
            row.alternativeDescription == desc) = 0 →
        ((update_from_user_feedback
            (update_from_user_feedback db desc pid sup) desc pid
            sup).productDescriptions.countP
          (fun row => row.productId == pid &&
            row.alternativeDescription == desc)) = 1) := by
  refine ⟨?_, ?_, ?_⟩
  · unfold add_alternative_description
    by_cases h : db.productDescriptions.countP
        (fun row => row.productId == pid && row.alternativeDescription == desc) = 0
    · simp [h, List.countP_append]
    · simp [h]
  · unfold update_from_user_feedback add_alternative_description
    by_cases h : db.productDescriptions.countP
        (fun row => row.productId == pid && row.alternativeDescription == desc) = 0
    · simp [h, List.countP_append]
    · simp [h]
  · intro h0
    unfold update_from_user_feedback add_alternative_description
    simp [h0, List.countP_append]

/-- **C8** (witness).  Two submissions of `("Galv Bolt", product 7)` against
an empty store leave exactly one alternative-description row for the pair. -/
theorem C8_feedback_insert_idempotent_witness :
    ((update_from_user_feedback
        (update_from_user_feedback ⟨[], []⟩ "Galv Bolt" 7 none) "Galv Bolt" 7
        none).productDescriptions.countP
      (fun row => row.productId == 7 &&
        row.alternativeDescription == "Galv Bolt")) = 1 :=
  (C8_feedback_insert_idempotent ⟨[], []⟩ 7 "Galv Bolt" "user_feedback"
    none).2.2 (by decide)

/-! # Theorems about the index rebuild (claim C9) -/

/-- **C9** (confirmed).  `build_vector_index(rebuild=True)` is idempotent:
rebuilding twice against unchanged catalog data produces the same
collection state as rebuilding once; indeed the resulting state is
independent of whatever the collection held before (the drop-then-recreate
wipes it), and the batch of `(id, document, metadata)` entries is a fixed
function of the loaded products — illustrated concretely by the
`product_7_std` / `product_7_user_feedback_1` entries of `sampleProduct`. -/
theorem C9_rebuild_idempotent :
    (∀ st products,
      build_vector_index (build_vector_index st products true) products true =
        build_vector_index st products true)
    ∧ (∀ st st' products,
      build_vector_index st products true = build_vector_index st' products true)
    ∧ (build_vector_index none [sampleProduct] true =
        some [⟨"product_7_std", "galvanized bolt 75mm", 7, "PC7", "Prod 7",
               "standardized", none, "Fasteners", "ACME"⟩,
              ⟨"product_7_user_feedback_1", "Galv Bolt", 7, "PC7", "Prod 7",
               "user_feedback", some "BuildCo", "Fasteners", "ACME"⟩]) := by
  refine ⟨?_, ?_, ?_⟩
  · intro st products
    by_cases h : products.isEmpty <;> simp [build_vector_index, h]
  · intro st st' products
    by_cases h : products.isEmpty <;> simp [build_vector_index, h]
  · decide

/-! # Theorems about the chunk splitter (claim C10) -/

/-- Helper for C10: once the loop reaches `start = 200` on `stuckText`, every
iteration recomputes `end = 400` (the only space in the window `[200, 1200)`
is at index 400 > 200) and `start = 400 - 200 = 200` again: the loop never
leaves `start = 200`, whatever fuel it is given. -/
theorem splitChunksLoop_stuck_at_200 (fuel : Nat) :
    ∀ acc, splitChunksLoop 1000 200 stuckText fuel 200 acc = none := by
  induction fuel with
  | zero => intro acc; rfl
  | succ n ih =>
    intro acc
    have hstep : splitChunkStep 1000 200 stuckText 200 =
        (some (List.replicate 200 'a'), 200) := by decide
    have hlt : 200 < stuckText.length := by decide
    simp only [splitChunksLoop, hlt, if_pos, hstep]
    exact ih _

/-- **C10** (code bug).  The claim says the chunk-splitting loop always makes
progress and terminates for every finite input.  On the 1201-character text
with a single space at index 400 it does not: from `start = 0` the first
iteration sets `start = 400 - 200 = 200`, and from `start = 200` every
iteration finds the window's last space at 400, emits `text[200:400]` again
and resets `start` to `200` — the Python `while` loop runs forever
(modelled: the fuel-bounded loop returns "still running" for every fuel). -/
theorem C10_chunk_splitter_loops_forever :
    stuckText.length = 1201
    ∧ splitChunkStep 1000 200 stuckText 0 = (some (List.replicate 400 'a'), 200)
    ∧ splitChunkStep 1000 200 stuckText 200 = (some (List.replicate 200 'a'), 200)
    ∧ (∀ fuel, split_text_into_chunks fuel stuckText = none) := by
  refine ⟨by decide, by decide, by decide, ?_⟩
  intro fuel
  unfold split_text_into_chunks
  have hlen : ¬ (stuckText.length ≤ 1000) := by decide
  rw [if_neg hlen]
  cases fuel with
  | zero => rfl
  | succ n =>
    have hstep : splitChunkStep 1000 200 stuckText 0 =
        (some (List.replicate 400 'a'), 200) := by decide
    have hlt : (0 : Nat) < stuckText.length := by decide
    simp only [splitChunksLoop, hlt, if_pos, hstep]
    exact splitChunksLoop_stuck_at_200 n _

end NsvPipeline
